import Mathlib

/-!
Shallow embedding of the Playwright-agent repository (a browser-automation
relay for document editing).  JavaScript strings are modelled as `List Char`
on the ASCII fragment actually exercised by the program; JS object literals
used as string-keyed registries are modelled as ordered association lists;
fallible browser calls are modelled by explicit environment oracles and
`Except`-valued computations; HTTP handler control flow (early returns,
try/catch/finally) is modelled by explicit case analysis producing a response
record plus a trace of resource events.
-/

namespace PlaywrightAgent

/-- JS `String.prototype.toLowerCase`, restricted to the ASCII fragment,
as a character map. -/
def jsLower (s : List Char) : List Char := s.map Char.toLower

/-- JS truthiness of a string value: the empty string is falsy. -/
def jsTruthy (s : List Char) : Bool := !s.isEmpty

/-- Bool-valued contiguous-substring test on lists. -/
def listInfixOf (needle : List Char) : List Char → Bool
  | [] => needle.isEmpty
  | c :: rest => needle.isPrefixOf (c :: rest) || listInfixOf needle rest

/-- JS `hay.includes(needle)`: contiguous-substring membership. -/
def jsIncludes (hay needle : List Char) : Bool := listInfixOf needle hay

/-- The whitespace characters stripped by JS `String.prototype.trim`
(ASCII fragment). -/
def jsIsWS (c : Char) : Bool := c = ' ' || c = '\t' || c = '\n' || c = '\r'

/-- JS `String.prototype.trim`. -/
def jsTrim (s : List Char) : List Char :=
  ((s.dropWhile jsIsWS).reverse.dropWhile jsIsWS).reverse

/-- JS `String.prototype.split` with a single-character separator. -/
def splitOnChar (sep : Char) : List Char → List (List Char)
  | [] => [[]]
  | c :: rest =>
    if c = sep then [] :: splitOnChar sep rest
    else
      match splitOnChar sep rest with
      | [] => [[c]]
      | seg :: segs => (c :: seg) :: segs

/-- JS `String.prototype.replace` with a plain-string pattern: replaces the
first (case-sensitive) occurrence of `pat` by `repl`. -/
def jsReplaceFirst (pat repl : List Char) : List Char → List Char
  | [] => []
  | c :: rest =>
    if pat.isPrefixOf (c :: rest) && !pat.isEmpty then
      repl ++ rest.drop (pat.length - 1)
    else
      c :: jsReplaceFirst pat repl rest

/-- Worker for JS `s.replace(/w1|w2/gi, '')`.  The scan advances one
character at a time; `skip` counts remaining characters of an already
recognised match that must still be discarded, so the recursion is
structural on the string. -/
def jsStripWordsCIAux (w1 w2 : List Char) (skip : Nat) :
    List Char → List Char
  | [] => []
  | c :: rest =>
    match skip with
    | k + 1 => jsStripWordsCIAux w1 w2 k rest
    | 0 =>
      if w1.isPrefixOf (jsLower (c :: rest)) && !w1.isEmpty then
        jsStripWordsCIAux w1 w2 (w1.length - 1) rest
      else if w2.isPrefixOf (jsLower (c :: rest)) && !w2.isEmpty then
        jsStripWordsCIAux w1 w2 (w2.length - 1) rest
      else c :: jsStripWordsCIAux w1 w2 0 rest

/-- JS `s.replace(/w1|w2/gi, '')`: removes every case-insensitive occurrence
of the two alternatives, scanning left to right and trying `w1` first at each
position (the regex alternation order). -/
def jsStripWordsCI (w1 w2 s : List Char) : List Char :=
  jsStripWordsCIAux w1 w2 0 s

/-- Worker for JS `s.split(/w1|w2/i)`: scans left to right, trying `w1`
before `w2` at each position (the regex alternation order), cutting a
segment at every case-insensitive match.  `acc` holds the reversed current
segment and `skip` counts remaining characters of a recognised match still
to be discarded. -/
def jsSplitWordsCIAux (w1 w2 : List Char) (skip : Nat) (acc : List Char) :
    List Char → List (List Char)
  | [] => [acc.reverse]
  | c :: rest =>
    match skip with
    | k + 1 => jsSplitWordsCIAux w1 w2 k acc rest
    | 0 =>
      if w1.isPrefixOf (jsLower (c :: rest)) && !w1.isEmpty then
        acc.reverse :: jsSplitWordsCIAux w1 w2 (w1.length - 1) [] rest
      else if w2.isPrefixOf (jsLower (c :: rest)) && !w2.isEmpty then
        acc.reverse :: jsSplitWordsCIAux w1 w2 (w2.length - 1) [] rest
      else jsSplitWordsCIAux w1 w2 0 (c :: acc) rest

/-- JS `s.split(/w1|w2/i)`. -/
def jsSplitWordsCI (w1 w2 s : List Char) : List (List Char) :=
  jsSplitWordsCIAux w1 w2 0 [] s

/-! ### Platform registry and detector (`detectPlatform`, `SUPPORTED_PLATFORMS`) -/

/-- The page-object class stored in a registry entry. -/
inductive PageClassId
  | googleDocsPage
  | googleSlidesPage
  | notionPage
deriving DecidableEq, Repr

def googleDocsName : List Char := "Google Docs".data

def googleSlidesName : List Char := "Google Slides".data

def notionName : List Char := "Notion".data

/-- One value of the `SUPPORTED_PLATFORMS` registry. -/
structure PlatformConfig where
  name : List Char
  authFile : List Char
  pageClass : PageClassId
deriving DecidableEq, Repr

/-- The registry value for Google Docs. -/
def googleDocsConfig : PlatformConfig :=
  ⟨googleDocsName, "google-auth.json".data, .googleDocsPage⟩

/-- The registry value for Google Slides. -/
def googleSlidesConfig : PlatformConfig :=
  ⟨googleSlidesName, "google-auth.json".data, .googleSlidesPage⟩

/-- The registry value for Notion. -/
def notionConfig : PlatformConfig :=
  ⟨notionName, "notion-auth.json".data, .notionPage⟩

/-- The `SUPPORTED_PLATFORMS` object literal, as an ordered association list
(one entry per key, in document order). -/
def SUPPORTED_PLATFORMS : List (List Char × PlatformConfig) :=
  [("docs.google.com".data, googleDocsConfig),
   ("slides.google.com".data, googleSlidesConfig),
   ("notion.so".data, notionConfig),
   ("www.notion.so".data, notionConfig)]

/-- The body of `detectPlatform` on the already-lowercased hostname:
exact-match lookup in the registry first, then the first entry (in document
order) whose key with `"www."` removed is contained in the hostname. -/
def detectFromLoweredHost (hl : List Char) : Option PlatformConfig :=
  match SUPPORTED_PLATFORMS.find? (fun e => e.1 == hl) with
  | some e => some e.2
  | none =>
    (SUPPORTED_PLATFORMS.find?
        (fun e => jsIncludes hl (jsReplaceFirst "www.".data [] e.1))).map
      (fun e => e.2)

/-- The body of `detectPlatform` after the URL has produced a hostname
(`const hostname = urlObj.hostname.toLowerCase()`). -/
def detectPlatformFromHost (hostname : List Char) : Option PlatformConfig :=
  detectFromLoweredHost (jsLower hostname)

/-- `detectPlatform(url)`: `new URL(url)` is modelled by the `parse`
argument (an arbitrary URL-parser behaviour, `Except` models a thrown
exception); the surrounding try/catch turns any parse exception into
`none`. -/
def detectPlatform (parse : List Char → Except Unit (List Char))
    (url : List Char) : Option PlatformConfig :=
  match parse url with
  | .error _ => none
  | .ok host => detectPlatformFromHost host

/-! ### The auto-instruction dispatcher (`executeAutoInstruction`) -/

/-- The classification outcome of the dispatcher (which of the five ordered
rules fired). -/
inductive ActionLabel
  | setTitleOrHeading
  | addList
  | applyFormatting
  | findAndReplace
  | addText
deriving DecidableEq, Repr

/-- A call into a platform page object (adapter operation plus its
arguments), recording what the dispatcher asks the platform to do. -/
inductive AdapterCall
  | addHeading (text : List Char) (level : Nat)
  | setSlideTitle (text : List Char)
  | addBulletList (items : List (List Char))
  | selectAllAndFormat (kind : List Char)
  | findAndReplace (findText replaceText : List Char)
  | typeText (text : List Char)
  | addTextBlock (text : List Char)
  | addTextBox (text : List Char)
deriving DecidableEq, Repr

/-- Result of running the dispatcher: the rule that fired and the adapter
calls it performed. -/
structure AutoResult where
  label : ActionLabel
  calls : List AdapterCall
deriving DecidableEq, Repr

/-- The final "default: just add the text" block of
`executeAutoInstruction`. -/
def defaultAddText (platformName instruction : List Char) : AutoResult :=
  { label := .addText,
    calls :=
      if platformName == googleDocsName then [.typeText instruction]
      else if platformName == notionName then [.addTextBlock instruction]
      else if platformName == googleSlidesName then [.addTextBox instruction]
      else [] }

/-- `executeAutoInstruction(pageObject, instruction, options, platformName)`:
the ordered keyword rules of the auto dispatcher, first match wins.  The
`options` argument is unused by the source function and omitted. -/
def executeAutoInstruction (platformName instruction : List Char) :
    AutoResult :=
  let lowerInstruction := jsLower instruction
  if jsIncludes lowerInstruction "title".data
      || jsIncludes lowerInstruction "heading".data then
    { label := .setTitleOrHeading,
      calls :=
        if platformName == notionName then
          [.addHeading
            (jsTrim (jsStripWordsCI "title".data "heading".data instruction))
            1]
        else if platformName == googleSlidesName then
          [.setSlideTitle
            (jsTrim (jsStripWordsCI "title".data "heading".data instruction))]
        else [] }
  else if jsIncludes lowerInstruction "list".data
      || jsIncludes lowerInstruction "bullet".data then
    { label := .addList,
      calls :=
        if platformName == notionName then
          let items := (splitOnChar '\n' instruction).filter
            (fun item =>
              jsTruthy (jsTrim item)
                && !jsIncludes (jsLower item) "list".data)
          if !items.isEmpty then [.addBulletList items]
          else
            [.addBulletList
              [jsTrim (jsStripWordsCI "list".data "bullet".data instruction)]]
        else [] }
  else if jsIncludes lowerInstruction "bold".data
      || jsIncludes lowerInstruction "italic".data then
    { label := .applyFormatting,
      calls :=
        [.selectAllAndFormat
          (if jsIncludes lowerInstruction "bold".data then "bold".data
           else "italic".data)] }
  else
    match
      (if jsIncludes lowerInstruction "replace".data
          && jsIncludes lowerInstruction "with".data then
        (if platformName == googleDocsName then
          (let parts := jsSplitWordsCI "replace".data "with".data instruction
           if 3 ≤ parts.length then
             some
               { label := .findAndReplace,
                 calls :=
                   [.findAndReplace (jsTrim (parts.getD 1 []))
                     (jsTrim (parts.getD 2 []))] }
           else none)
        else none)
      else none) with
    | some r => r
    | none => defaultAddText platformName instruction

/-- The explicit addlist case branch of the `/edit-doc` switch in
`index.js`: only the Notion page object receives a list; lines are split on
newlines and kept when their trim is truthy (the lines themselves are not
trimmed). -/
def editDocExplicitAddListCalls (platformName instruction : List Char) :
    List AdapterCall :=
  if platformName == notionName then
    [.addBulletList
      ((splitOnChar '\n' instruction).filter
        (fun item => jsTruthy (jsTrim item)))]
  else []

/-! ### The main `/edit-doc` handler of `index.js`: control flow, response
envelope and browser-resource events -/

/-- Browser-resource lifecycle events observable while a request runs. -/
inductive ResourceEvent
  | browserCreate
  | browserClose
  | contextCreate
  | contextClose
deriving DecidableEq, Repr

/-- Behaviour oracle for the external steps of the `index.js` handler. -/
structure BrowserEnv where
  /-- `chromium.launch` (or an earlier step of `createAuthenticatedContext`)
  throws, so no browser exists. -/
  launchFails : Bool
  /-- `browser.newContext` throws after the browser was launched. -/
  newContextFails : Bool
  /-- result of `pageObject.isLoggedIn()`. -/
  loggedIn : Bool
  /-- navigation, platform load wait, or the dispatched action throws. -/
  operationThrows : Bool
  /-- `pageObject.verifyContentExists` throws. -/
  verifyThrows : Bool
deriving DecidableEq, Repr

/-- Response envelope of the `index.js` handler, restricted to the fields
the claims are about; `Option.none` models a key that is absent from the
JSON body. -/
structure IndexResponse where
  status : Nat
  success : Option Bool
  verified : Option Bool
deriving DecidableEq, Repr

/-- Everything observable about one run of the `index.js` handler after
platform detection and input validation succeeded. -/
structure IndexOutcome where
  resp : IndexResponse
  /-- `console.warn` was emitted for a failed content verification. -/
  verifyWarned : Bool
  events : List ResourceEvent
deriving DecidableEq, Repr

/-- The `index.js` `/edit-doc` handler from the `try` block onwards
(platform already detected, request fields already validated): the `try`
runs creation, login check, the action, and the advisory verification
(whose exception is caught inline and only warned about); the `catch` maps
any thrown error to a 500 response; the `finally` closes the browser iff
the `browser` variable of the handler was assigned. -/
def editDocIndex (env : BrowserEnv) : IndexOutcome :=
  if env.launchFails then
    { resp := { status := 500, success := none, verified := none },
      verifyWarned := false,
      events := [] }
  else if env.newContextFails then
    { resp := { status := 500, success := none, verified := none },
      verifyWarned := false,
      events := [.browserCreate] }
  else if !env.loggedIn then
    { resp := { status := 401, success := none, verified := none },
      verifyWarned := false,
      events := [.browserCreate, .browserClose] }
  else if env.operationThrows then
    { resp := { status := 500, success := none, verified := none },
      verifyWarned := false,
      events := [.browserCreate, .browserClose] }
  else
    { resp := { status := 200, success := some true, verified := none },
      verifyWarned := env.verifyThrows,
      events := [.browserCreate, .browserClose] }

/-! ### The `/edit-doc` handler of the OAuth worker variant (`part_001`) -/

/-- The `credentials` object of a request (only the `access_token` field is
inspected by the handler). -/
structure Credentials where
  access_token : Option (List Char)
deriving DecidableEq, Repr

/-- JS truthiness of a possibly-absent string field. -/
def jsTruthyOpt (o : Option (List Char)) : Bool :=
  match o with
  | some s => jsTruthy s
  | none => false

/-- Which authentication path the handler takes. -/
inductive AuthPath
  | oauth
  | legacyBlob
  | noMethod
deriving DecidableEq, Repr

/-- The authentication-method selection of the `part_001` handler:
`if (credentials && credentials.access_token) ... else if (authState) ...
else throw`. -/
def chooseAuthMethod (credentials : Option Credentials) (authState : Bool) :
    AuthPath :=
  if (match credentials with
      | some c => jsTruthyOpt c.access_token
      | none => false) then .oauth
  else if authState then .legacyBlob
  else .noMethod

/-- A request to the OAuth worker variant.  `authState` records whether a
(truthy) session-state blob is present. -/
structure WorkerRequest where
  docUrl : Option (List Char)
  instruction : Option (List Char)
  credentials : Option Credentials
  authState : Bool
deriving DecidableEq, Repr

/-- Behaviour oracle for the browser steps of the worker handlers. -/
structure WorkerEnv where
  /-- `chromium.launch`, `authenticateWithToken` or `browser.newContext`
  throws. -/
  contextSetupFails : Bool
  /-- navigation, document load wait, or instruction execution throws. -/
  automationThrows : Bool
deriving DecidableEq, Repr

/-- Response envelope of the worker handlers (fields relevant to the
claims). -/
structure WorkerResponse where
  status : Nat
  login_required : Option Bool
deriving DecidableEq, Repr

/-- The `part_001` `/edit-doc` handler: field validation, the
missing-credentials 401 guard, platform detection, then the `try` block
choosing the authentication method (a request that reaches the selection
with neither method usable hits the no-valid-authentication-method
`throw`, which the `catch` turns into a 500). -/
def editDocWorker (parse : List Char → Except Unit (List Char))
    (req : WorkerRequest) (env : WorkerEnv) : WorkerResponse :=
  if !jsTruthyOpt req.docUrl || !jsTruthyOpt req.instruction then
    { status := 400, login_required := none }
  else if req.credentials.isNone && !req.authState then
    { status := 401, login_required := some true }
  else
    match detectPlatform parse (req.docUrl.getD []) with
    | none => { status := 400, login_required := none }
    | some _ =>
      match chooseAuthMethod req.credentials req.authState with
      | .noMethod => { status := 500, login_required := none }
      | _ =>
        if env.contextSetupFails || env.automationThrows then
          { status := 500, login_required := none }
        else
          { status := 200, login_required := none }

/-! ### The `/edit-doc` handler of the authState-only worker (`part_002`) -/

/-- A request to the authState-only worker. -/
structure Worker4Request where
  docUrl : Option (List Char)
  instruction : Option (List Char)
  authState : Bool
deriving DecidableEq, Repr

/-- The `part_002` `/edit-doc` handler: field validation, the
missing-`authState` 401 guard, platform detection, then the automation
`try` block. -/
def editDocWorker4 (parse : List Char → Except Unit (List Char))
    (req : Worker4Request) (env : WorkerEnv) : WorkerResponse :=
  if !jsTruthyOpt req.docUrl || !jsTruthyOpt req.instruction then
    { status := 400, login_required := none }
  else if !req.authState then
    { status := 401, login_required := some true }
  else
    match detectPlatform parse (req.docUrl.getD []) with
    | none => { status := 400, login_required := none }
    | some _ =>
      if env.contextSetupFails || env.automationThrows then
        { status := 500, login_required := none }
      else
        { status := 200, login_required := none }

/-! ### The `/edit-doc` handler of the Supabase variant (`part_003`) -/

/-- A request to the Supabase variant. -/
structure SupabaseRequest where
  docUrl : Option (List Char)
  instruction : Option (List Char)
  userId : Option (List Char)
deriving DecidableEq, Repr

/-- Behaviour oracle for the external steps of the Supabase handler. -/
structure SupabaseEnv where
  /-- `getCredentials` throws (store error). -/
  getCredThrows : Bool
  /-- `getCredentials` returns a stored session blob (else `null`). -/
  storedCred : Bool
  /-- `chromium.launchPersistentContext` throws, so no context exists. -/
  launchFails : Bool
  /-- `docPage.navigate` throws. -/
  navThrows : Bool
  /-- `docPage.executeInstruction` throws. -/
  execThrows : Bool
deriving DecidableEq, Repr

/-- Observable outcome of one run of the Supabase handler. -/
structure SupabaseOutcome where
  status : Nat
  events : List ResourceEvent
deriving DecidableEq, Repr

/-- The `part_003` `/edit-doc` handler.  There is no `finally` block:
`context.close()` is executed only on the success path after the 200
response, and the `catch` block closes the variable `browser` — which is
declared but never assigned in this handler — so no resource is released
on any error path. -/
def editDocSupabase (parse : List Char → Except Unit (List Char))
    (req : SupabaseRequest) (env : SupabaseEnv) : SupabaseOutcome :=
  if !jsTruthyOpt req.docUrl || !jsTruthyOpt req.instruction
      || !jsTruthyOpt req.userId then
    { status := 400, events := [] }
  else
    match detectPlatform parse (req.docUrl.getD []) with
    | none => { status := 400, events := [] }
    | some _ =>
      if env.getCredThrows then { status := 500, events := [] }
      else if !env.storedCred then { status := 401, events := [] }
      else if env.launchFails then { status := 500, events := [] }
      else if env.navThrows then
        { status := 500, events := [.contextCreate] }
      else if env.execThrows then
        { status := 500, events := [.contextCreate] }
      else
        { status := 200, events := [.contextCreate, .contextClose] }

/-! ### Concrete inputs used by witnesses and counterexamples -/

/-- A URL parser that always yields the Google-Docs hostname (models
`new URL` on a well-formed docs URL). -/
def parseDocsHost : List Char → Except Unit (List Char) :=
  fun _ => Except.ok "docs.google.com".data

/-- A well-formed Google-Docs document URL. -/
def docsUrlChars : List Char :=
  "https://docs.google.com/document/d/abc123/edit".data

/-! ### Theorems -/

/-- Claim C1: for every instruction containing "title" or "heading"
(case-insensitively) — in particular also when it additionally contains
"list" or "bullet" — the auto dispatcher classifies it as
SetTitleOrHeading and never as AddList: the title/heading rule is checked
first and the first matching rule wins. -/
theorem auto_dispatch_title_wins_over_list (p s : List Char)
    (h : jsIncludes (jsLower s) "title".data = true
      ∨ jsIncludes (jsLower s) "heading".data = true)
    (_hlist : jsIncludes (jsLower s) "list".data = true
      ∨ jsIncludes (jsLower s) "bullet".data = true) :
    (executeAutoInstruction p s).label = ActionLabel.setTitleOrHeading
      ∧ (executeAutoInstruction p s).label ≠ ActionLabel.addList := by
  have hcond : (jsIncludes (jsLower s) "title".data
      || jsIncludes (jsLower s) "heading".data) = true := by
    rcases h with h | h <;> simp [h]
  unfold executeAutoInstruction
  simp [hcond]

/-- Witness for C1 at the instance given in the spec. -/
theorem auto_dispatch_title_wins_over_list_witness :
    (executeAutoInstruction notionName
        "Add a title and a list: A, B".data).label
      = ActionLabel.setTitleOrHeading := by
  exact (auto_dispatch_title_wins_over_list notionName
    "Add a title and a list: A, B".data (Or.inl (by decide))
    (Or.inl (by decide))).1

/-- Claim C3: the credential resolver of the OAuth worker: a request carrying
an OAuth credential with a (truthy) access token takes the OAuth path even
when a session-state blob is also present, and the legacy session-blob path
is taken only when no truthy access token is present. -/
theorem credential_precedence_oauth_over_blob :
    (∀ c : Credentials, ∀ a : Bool, jsTruthyOpt c.access_token = true →
      chooseAuthMethod (some c) a = AuthPath.oauth)
    ∧ (∀ cr : Option Credentials, ∀ a : Bool,
        chooseAuthMethod cr a = AuthPath.legacyBlob →
        ∀ c : Credentials, cr = some c →
          jsTruthyOpt c.access_token = false) := by
  constructor
  · intro c a h
    simp [chooseAuthMethod, h]
  · intro cr a h c hcr
    subst hcr
    by_cases htok : jsTruthyOpt c.access_token = true
    · simp [chooseAuthMethod, htok] at h
    · simpa using htok

/-- Witness for C3: a request with both a non-empty OAuth token and a
session blob resolves to the OAuth path. -/
theorem credential_precedence_oauth_over_blob_witness :
    chooseAuthMethod (some ⟨some "ya29.token".data⟩) true = AuthPath.oauth :=
  credential_precedence_oauth_over_blob.1 ⟨some "ya29.token".data⟩ true
    (by decide)

/-- Counterexample for C4: after a successful mutating operation, a
verification failure leaves the 200/`success: true` response byte-for-byte
identical to the verification-success response: no `verified` field (and no
warning) is attached to the response — the warning goes only to the server
log.  This refutes the claim that the verification outcome is attached to
the response as advisory information (`verified=false`). -/
theorem verify_failure_response_unchanged_cex :
    (editDocIndex ⟨false, false, true, false, true⟩).resp
        = (editDocIndex ⟨false, false, true, false, false⟩).resp
      ∧ (editDocIndex ⟨false, false, true, false, true⟩).resp.verified = none
      ∧ (editDocIndex ⟨false, false, true, false, true⟩).resp.verified
          ≠ some false
      ∧ (editDocIndex ⟨false, false, true, false, true⟩).resp.status = 200
      ∧ (editDocIndex ⟨false, false, true, false, true⟩).resp.success
          = some true
      ∧ (editDocIndex ⟨false, false, true, false, true⟩).verifyWarned
          = true := by
  decide

/-- Claim C4 as amended: a verification failure never downgrades a succeeded
mutating operation: the response is HTTP 200 with `success: true`, carries
no verification outcome (no `verified` field), and is identical to the
response produced when verification succeeds; the failure is only logged as
a server-side warning. -/
theorem verify_failure_never_downgrades (env : BrowserEnv)
    (h1 : env.launchFails = false) (h2 : env.newContextFails = false)
    (h3 : env.loggedIn = true) (h4 : env.operationThrows = false) :
    (editDocIndex env).resp.status = 200
      ∧ (editDocIndex env).resp.success = some true
      ∧ (editDocIndex env).resp.verified = none
      ∧ (editDocIndex env).resp
          = (editDocIndex { env with verifyThrows := false }).resp := by
  obtain ⟨l, nc, li, op, v⟩ := env
  simp only at h1 h2 h3 h4
  subst h1 h2 h3 h4
  cases v <;> decide

/-- Witness for C4 (amended), at the environment where verification throws
after a successful operation. -/
theorem verify_failure_never_downgrades_witness :
    (editDocIndex ⟨false, false, true, false, true⟩).resp.status = 200
      ∧ (editDocIndex ⟨false, false, true, false, true⟩).resp.success
        = some true :=
  ⟨(verify_failure_never_downgrades ⟨false, false, true, false, true⟩
      rfl rfl rfl rfl).1,
   (verify_failure_never_downgrades ⟨false, false, true, false, true⟩
      rfl rfl rfl rfl).2.1⟩

/-- Counterexample for C5: a request to the OAuth worker that carries no
usable credential form — its `credentials` object has no access token and
there is no `authState` blob — passes the field-presence 401 guard
(`!credentials && !authState` is false because the object is truthy) and
then fails inside the `try` block on the no-valid-authentication-method
`throw`, yielding a 500-class response without
the `login_required` flag.  This refutes the claim that every request with
none of the credential forms gets a 401 AuthenticationRequired response. -/
theorem missing_credentials_500_cex :
    editDocWorker parseDocsHost
        ⟨some docsUrlChars, some "Add text".data, some ⟨none⟩, false⟩
        ⟨false, false⟩
      = { status := 500, login_required := none } := by
  decide

/-- Claim C5 as amended: a request that omits the credential fields entirely
(no `credentials` field and no `authState` field for the OAuth worker; no
`authState` field for the authState-only worker) is answered 401 with the
machine-checkable flag `login_required: true`, before any browser work and
regardless of the automation environment — never with a 500-class
failure.  (A request carrying a credentials object with no truthy
access token and no session blob instead reaches the method selection and
fails 500, per the counterexample.) -/
theorem absent_credential_fields_401 :
    (∀ parse req env, jsTruthyOpt (WorkerRequest.docUrl req) = true →
      jsTruthyOpt req.instruction = true → req.credentials = none →
      req.authState = false →
      editDocWorker parse req env
        = { status := 401, login_required := some true })
    ∧ (∀ parse req env, jsTruthyOpt (Worker4Request.docUrl req) = true →
      jsTruthyOpt req.instruction = true → req.authState = false →
      editDocWorker4 parse req env
        = { status := 401, login_required := some true }) := by
  constructor
  · intro parse req env h1 h2 h3 h4
    obtain ⟨d, i, c, a⟩ := req
    simp only at h1 h2 h3 h4
    subst h3 h4
    simp [editDocWorker, h1, h2]
  · intro parse req env h1 h2 h3
    obtain ⟨d, i, a⟩ := req
    simp only at h1 h2 h3
    subst h3
    simp [editDocWorker4, h1, h2]

/-- Witness for C5 (amended): a field-less request gets the 401 with
`login_required: true` from both worker variants. -/
theorem absent_credential_fields_401_witness :
    editDocWorker parseDocsHost
        ⟨some docsUrlChars, some "Add text".data, none, false⟩ ⟨false, false⟩
        = { status := 401, login_required := some true }
      ∧ editDocWorker4 parseDocsHost
        ⟨some docsUrlChars, some "Add text".data, false⟩ ⟨false, false⟩
        = { status := 401, login_required := some true } :=
  ⟨absent_credential_fields_401.1 parseDocsHost
      ⟨some docsUrlChars, some "Add text".data, none, false⟩ ⟨false, false⟩
      (by decide) (by decide) rfl rfl,
   absent_credential_fields_401.2 parseDocsHost
      ⟨some docsUrlChars, some "Add text".data, false⟩ ⟨false, false⟩
      (by decide) (by decide) rfl⟩

/-- Counterexample for C6: with actionHint "auto", the instruction
`"Item 1\nItem 2\nItem 3"` contains none of the trigger words of the dispatcher
(in particular neither "list" nor "bullet"), so it is classified by the
default rule as AddText — the whole three-line string is typed as one text
block — and not as AddList.  This refutes the claim that the auto
dispatcher yields a 3-item list for this instruction. -/
theorem auto_newline_items_not_a_list_cex :
    executeAutoInstruction notionName "Item 1\nItem 2\nItem 3".data
        = { label := ActionLabel.addText,
            calls := [AdapterCall.addTextBlock "Item 1\nItem 2\nItem 3".data] }
      ∧ (executeAutoInstruction notionName
          "Item 1\nItem 2\nItem 3".data).label ≠ ActionLabel.addList := by
  decide

/-- Claim C6 as amended: for the instruction `"Item 1\nItem 2\nItem 3"` with
the explicit actionHint "addlist" (and the Notion platform, the only one
with an addlist implementation), the handler yields a 3-item list whose
items are exactly "Item 1", "Item 2", "Item 3"; with actionHint "auto" the
instruction contains no trigger words, so classification falls to the
default AddText rule and no list is produced. -/
theorem explicit_addlist_newline_items :
    editDocExplicitAddListCalls notionName "Item 1\nItem 2\nItem 3".data
        = [AdapterCall.addBulletList
            ["Item 1".data, "Item 2".data, "Item 3".data]]
      ∧ (executeAutoInstruction notionName
          "Item 1\nItem 2\nItem 3".data).label = ActionLabel.addText := by
  decide

/-- Claim C2: release of the browser resource across exit paths.  First
conjunct: in the main (`index.js`) handler, whenever the browser handle was
created and assigned, the `finally` block closes it exactly once on every
exit path (success, not-logged-in return, adapter exception, verification
exception).  Second conjunct: the cited Supabase-variant handler
(`part_003`) violates the claim — on an adapter exception
(`executeInstruction` throws) the persistent context was created but is
closed zero times, because the handler has no `finally` and its `catch`
closes a `browser` variable that is never assigned; the request ends 500
with the context leaked. -/
theorem browser_release_on_all_paths_and_supabase_leak :
    (∀ env : BrowserEnv, env.launchFails = false →
      env.newContextFails = false →
      (editDocIndex env).events.count ResourceEvent.browserClose = 1
        ∧ (editDocIndex env).events.count ResourceEvent.browserCreate = 1)
    ∧ ((editDocSupabase parseDocsHost
          ⟨some docsUrlChars, some "Add text".data, some "user_12345".data⟩
          ⟨false, true, false, false, true⟩).events.count
            ResourceEvent.contextCreate = 1
      ∧ (editDocSupabase parseDocsHost
          ⟨some docsUrlChars, some "Add text".data, some "user_12345".data⟩
          ⟨false, true, false, false, true⟩).events.count
            ResourceEvent.contextClose = 0
      ∧ (editDocSupabase parseDocsHost
          ⟨some docsUrlChars, some "Add text".data, some "user_12345".data⟩
          ⟨false, true, false, false, true⟩).status = 500) := by
  constructor
  · intro env h1 h2
    obtain ⟨l, nc, li, op, v⟩ := env
    simp only at h1 h2
    subst h1 h2
    cases li <;> cases op <;> cases v <;> decide
  · decide

/-- Witness for C2 at a concrete environment: a successful `index.js`
request closes the browser exactly once. -/
theorem browser_release_on_all_paths_and_supabase_leak_witness :
    (editDocIndex ⟨false, false, true, false, false⟩).events.count
      ResourceEvent.browserClose = 1 :=
  (browser_release_on_all_paths_and_supabase_leak.1
    ⟨false, false, true, false, false⟩ rfl rfl).1

/-- Counterexample for C7: the instruction "Replace title with header"
contains both "replace" and "with" and splits on them into at least three
segments, yet the dispatcher performs no find/replace extraction: the word
"title" makes rule 1 fire first, so the instruction is classified
SetTitleOrHeading.  Moreover, even without earlier keywords, extraction
happens only on Google Docs: on Notion, "Replace aa with bb" falls through
to the default AddText.  This refutes the claim as universally stated. -/
theorem replace_with_extraction_cex :
    jsIncludes (jsLower "Replace title with header".data) "replace".data
        = true
      ∧ jsIncludes (jsLower "Replace title with header".data) "with".data
        = true
      ∧ 3 ≤ (jsSplitWordsCI "replace".data "with".data
          "Replace title with header".data).length
      ∧ executeAutoInstruction googleDocsName "Replace title with header".data
        = { label := ActionLabel.setTitleOrHeading, calls := [] }
      ∧ executeAutoInstruction notionName "Replace aa with bb".data
        = { label := ActionLabel.addText,
            calls := [AdapterCall.addTextBlock "Replace aa with bb".data] } := by
  decide

/-- Claim C7 as amended: for every instruction containing both "replace" and
"with" (case-insensitively) but none of the keywords of the earlier rules
(title, heading, list, bullet, bold, italic), dispatched for Google Docs:
if splitting on the literal words replace/with yields at least three
segments, segment 1 trimmed becomes the find-text and segment 2 trimmed the
replace-text, all other characters (including quotes) preserved verbatim —
in particular "Replace \x27old version\x27 with \x27new version\x27" yields
find-text "\x27old version\x27" and replace-text "\x27new version\x27";
with fewer than three segments classification falls through to the default
AddText rule without erroring. -/
theorem replace_with_extraction :
    (∀ s : List Char,
      jsIncludes (jsLower s) "title".data = false →
      jsIncludes (jsLower s) "heading".data = false →
      jsIncludes (jsLower s) "list".data = false →
      jsIncludes (jsLower s) "bullet".data = false →
      jsIncludes (jsLower s) "bold".data = false →
      jsIncludes (jsLower s) "italic".data = false →
      jsIncludes (jsLower s) "replace".data = true →
      jsIncludes (jsLower s) "with".data = true →
      3 ≤ (jsSplitWordsCI "replace".data "with".data s).length →
      executeAutoInstruction googleDocsName s
        = { label := ActionLabel.findAndReplace,
            calls := [AdapterCall.findAndReplace
              (jsTrim ((jsSplitWordsCI "replace".data "with".data s).getD 1 []))
              (jsTrim
                ((jsSplitWordsCI "replace".data "with".data s).getD 2 []))] })
    ∧ (∀ s : List Char,
      jsIncludes (jsLower s) "title".data = false →
      jsIncludes (jsLower s) "heading".data = false →
      jsIncludes (jsLower s) "list".data = false →
      jsIncludes (jsLower s) "bullet".data = false →
      jsIncludes (jsLower s) "bold".data = false →
      jsIncludes (jsLower s) "italic".data = false →
      (jsSplitWordsCI "replace".data "with".data s).length < 3 →
      (executeAutoInstruction googleDocsName s).label = ActionLabel.addText)
    ∧ executeAutoInstruction googleDocsName
        "Replace \x27old version\x27 with \x27new version\x27".data
      = { label := ActionLabel.findAndReplace,
          calls := [AdapterCall.findAndReplace "\x27old version\x27".data
            "\x27new version\x27".data] } := by
  refine ⟨?_, ?_, by decide⟩
  · intro s h1 h2 h3 h4 h5 h6 h7 h8 h9
    unfold executeAutoInstruction
    simp [h1, h2, h3, h4, h5, h6, h7, h8, h9]
  · intro s h1 h2 h3 h4 h5 h6 h9
    have h9' : ¬ 3 ≤ (jsSplitWordsCI "replace".data "with".data s).length :=
      by omega
    unfold executeAutoInstruction
    by_cases h7 : jsIncludes (jsLower s) "replace".data = true
      <;> by_cases h8 : jsIncludes (jsLower s) "with".data = true
      <;> simp [h1, h2, h3, h4, h5, h6, h7, h8, h9', defaultAddText]

/-- Witness for C7 (amended), applying both universal conjuncts at concrete
instructions. -/
theorem replace_with_extraction_witness :
    executeAutoInstruction googleDocsName
        "Replace \x27old version\x27 with \x27new version\x27".data
      = { label := ActionLabel.findAndReplace,
          calls := [AdapterCall.findAndReplace
            (jsTrim ((jsSplitWordsCI "replace".data "with".data
              "Replace \x27old version\x27 with \x27new version\x27".data).getD
                1 []))
            (jsTrim ((jsSplitWordsCI "replace".data "with".data
              "Replace \x27old version\x27 with \x27new version\x27".data).getD
                2 []))] }
      ∧ (executeAutoInstruction googleDocsName "hello world".data).label
        = ActionLabel.addText :=
  ⟨replace_with_extraction.1
      "Replace \x27old version\x27 with \x27new version\x27".data
      (by decide) (by decide) (by decide) (by decide) (by decide) (by decide)
      (by decide) (by decide) (by decide),
   replace_with_extraction.2.1 "hello world".data
      (by decide) (by decide) (by decide) (by decide) (by decide) (by decide)
      (by decide)⟩

/-- Claim C10: `detectPlatform` is total over arbitrary inputs and URL-parser
behaviours: a parse failure (the `new URL` constructor throwing) is caught
and yields `null`; on a successful parse the result is that of the hostname
matching; and in every case the function returns either `null` or one of
the entries of the registry itself — it never propagates an exception. -/
theorem detect_platform_total
    (parse : List Char → Except Unit (List Char)) (url : List Char) :
    ((parse url).isOk = false → detectPlatform parse url = none)
      ∧ (∀ h : List Char, parse url = Except.ok h →
          detectPlatform parse url = detectPlatformFromHost h)
      ∧ (detectPlatform parse url = none
          ∨ ∃ e ∈ SUPPORTED_PLATFORMS, detectPlatform parse url = some e.2) := by
  cases hp : parse url with
  | error e =>
    refine ⟨fun _ => by simp [detectPlatform, hp], ?_, ?_⟩
    · intro h heq
      exact absurd heq (by simp)
    · left
      simp [detectPlatform, hp]
  | ok h =>
    have hres : detectPlatform parse url = detectPlatformFromHost h := by
      simp [detectPlatform, hp]
    refine ⟨fun hfalse => by simp [Except.isOk, Except.toBool] at hfalse, ?_, ?_⟩
    · intro h' heq
      cases heq
      exact hres
    · rw [hres]
      unfold detectPlatformFromHost detectFromLoweredHost
      cases hf : SUPPORTED_PLATFORMS.find? (fun e => e.1 == jsLower h) with
      | some entry =>
        exact Or.inr ⟨entry, List.mem_of_find?_eq_some hf, by simp⟩
      | none =>
        cases hg : SUPPORTED_PLATFORMS.find?
            (fun e =>
              jsIncludes (jsLower h) (jsReplaceFirst "www.".data [] e.1)) with
        | some entry =>
          exact Or.inr ⟨entry, List.mem_of_find?_eq_some hg, by simp [hg]⟩
        | none => exact Or.inl (by simp [hg])

/-- Witness for C10 at a failing parse and at a successful one. -/
theorem detect_platform_total_witness :
    detectPlatform (fun _ => Except.error ()) "not a url".data = none
      ∧ detectPlatform parseDocsHost docsUrlChars
        = detectPlatformFromHost "docs.google.com".data :=
  ⟨(detect_platform_total (fun _ => Except.error ()) "not a url".data).1
      (by decide),
   (detect_platform_total parseDocsHost docsUrlChars).2.1
      "docs.google.com".data rfl⟩

/-- The number of segments produced by the case-insensitive word split
depends only on the lowercased input (the segment contents may differ). -/
theorem jsSplitWordsCIAux_length_congr (w1 w2 : List Char) :
    ∀ s t : List Char, ∀ skip : Nat, ∀ acc1 acc2 : List Char,
      jsLower s = jsLower t →
      (jsSplitWordsCIAux w1 w2 skip acc1 s).length
        = (jsSplitWordsCIAux w1 w2 skip acc2 t).length := by
  intro s
  induction s with
  | nil =>
    intro t skip acc1 acc2 h
    have ht : t = [] := by
      have hlen := congrArg List.length h
      simp only [jsLower, List.length_map, List.length_nil] at hlen
      exact List.eq_nil_of_length_eq_zero hlen.symm
    subst ht
    simp [jsSplitWordsCIAux]
  | cons c s' ih =>
    intro t skip acc1 acc2 h
    cases t with
    | nil =>
      have hlen := congrArg List.length h
      simp [jsLower] at hlen
    | cons d t' =>
      have ht : jsLower s' = jsLower t' := by
        have h2 := h
        simp only [jsLower, List.map_cons, List.cons.injEq] at h2
        exact h2.2
      simp only [jsSplitWordsCIAux]
      cases skip with
      | succ k => exact ih t' k acc1 acc2 ht
      | zero =>
        rw [h]
        by_cases h1 :
            (w1.isPrefixOf (jsLower (d :: t')) && !w1.isEmpty) = true
        · rw [if_pos h1, if_pos h1]
          simp only [List.length_cons]
          exact congrArg (· + 1) (ih t' (w1.length - 1) [] [] ht)
        · rw [if_neg h1, if_neg h1]
          by_cases h2 :
              (w2.isPrefixOf (jsLower (d :: t')) && !w2.isEmpty) = true
          · rw [if_pos h2, if_pos h2]
            simp only [List.length_cons]
            exact congrArg (· + 1) (ih t' (w2.length - 1) [] [] ht)
          · rw [if_neg h2, if_neg h2]
            exact ih t' 0 (c :: acc1) (d :: acc2) ht

/-- Claim C9: the classification made by the auto dispatcher is invariant under letter
case: two instructions with the same lowercasing are classified with the
same ActionKind, on every platform — all keyword checks run on the
lowercased instruction, and the segment count of the replace/with split is
determined by the lowercased instruction as well. -/
theorem auto_dispatch_case_invariant (p s t : List Char)
    (h : jsLower s = jsLower t) :
    (executeAutoInstruction p s).label = (executeAutoInstruction p t).label := by
  have hlen : (jsSplitWordsCI "replace".data "with".data s).length
      = (jsSplitWordsCI "replace".data "with".data t).length :=
    jsSplitWordsCIAux_length_congr "replace".data "with".data s t 0 [] [] h
  simp only [executeAutoInstruction, jsSplitWordsCI] at hlen ⊢
  rw [h, hlen]
  by_cases c1 : (jsIncludes (jsLower t) "title".data
      || jsIncludes (jsLower t) "heading".data) = true
  · simp [c1]
  · rw [if_neg c1, if_neg c1]
    by_cases c2 : (jsIncludes (jsLower t) "list".data
        || jsIncludes (jsLower t) "bullet".data) = true
    · simp [c2]
    · rw [if_neg c2, if_neg c2]
      by_cases c3 : (jsIncludes (jsLower t) "bold".data
          || jsIncludes (jsLower t) "italic".data) = true
      · simp [c3]
      · rw [if_neg c3, if_neg c3]
        by_cases c4 : (jsIncludes (jsLower t) "replace".data
            && jsIncludes (jsLower t) "with".data) = true
        · by_cases c5 : (p == googleDocsName) = true
          · by_cases c6 : 3 ≤ (jsSplitWordsCIAux "replace".data "with".data
                0 [] t).length
            · simp [c4, c5, c6]
            · simp [c4, c5, c6, defaultAddText]
          · simp [c4, c5, defaultAddText]
        · simp [c4, defaultAddText]

/-- Witness for C9: an all-caps variant of an instruction is classified
like the lowercase one. -/
theorem auto_dispatch_case_invariant_witness :
    (executeAutoInstruction notionName "ADD A TITLE HERE".data).label
      = (executeAutoInstruction notionName "add a title here".data).label :=
  auto_dispatch_case_invariant notionName "ADD A TITLE HERE".data
    "add a title here".data (by decide)

/-- Claim C8: the platform detector: (1) a hostname whose lowercasing exactly
matches a registry key yields the registry entry of that key; (2) on an
exact-match miss, the first registry entry in document order whose key with
"www." stripped is contained in the hostname wins — Google Docs is tested
before Slides, which is tested before the two Notion entries (both of whose
stripped keys are "notion.so"); (3) with no match at all the detector
returns `none` rather than throwing; and (4) the `/edit-doc` caller maps an
unrecognized platform to a 400-class input error. -/
theorem platform_detector_matching :
    (∀ host k : List Char, ∀ cfg : PlatformConfig,
      (k, cfg) ∈ SUPPORTED_PLATFORMS → jsLower host = k →
      detectPlatformFromHost host = some cfg)
    ∧ (∀ host : List Char,
      (∀ e ∈ SUPPORTED_PLATFORMS, e.1 ≠ jsLower host) →
      (jsIncludes (jsLower host) "docs.google.com".data = true →
          detectPlatformFromHost host = some googleDocsConfig)
        ∧ (jsIncludes (jsLower host) "docs.google.com".data = false →
           jsIncludes (jsLower host) "slides.google.com".data = true →
          detectPlatformFromHost host = some googleSlidesConfig)
        ∧ (jsIncludes (jsLower host) "docs.google.com".data = false →
           jsIncludes (jsLower host) "slides.google.com".data = false →
           jsIncludes (jsLower host) "notion.so".data = true →
          detectPlatformFromHost host = some notionConfig)
        ∧ (jsIncludes (jsLower host) "docs.google.com".data = false →
           jsIncludes (jsLower host) "slides.google.com".data = false →
           jsIncludes (jsLower host) "notion.so".data = false →
          detectPlatformFromHost host = none))
    ∧ (∀ parse req env, jsTruthyOpt (WorkerRequest.docUrl req) = true →
      jsTruthyOpt req.instruction = true →
      (req.credentials.isNone && !req.authState) = false →
      detectPlatform parse (req.docUrl.getD []) = none →
      editDocWorker parse req env
        = { status := 400, login_required := none }) := by
  have s1 : jsReplaceFirst "www.".data [] "docs.google.com".data
      = "docs.google.com".data := by decide
  have s2 : jsReplaceFirst "www.".data [] "slides.google.com".data
      = "slides.google.com".data := by decide
  have s3 : jsReplaceFirst "www.".data [] "notion.so".data
      = "notion.so".data := by decide
  have s4 : jsReplaceFirst "www.".data [] "www.notion.so".data
      = "notion.so".data := by decide
  refine ⟨?_, ?_, ?_⟩
  · intro host k cfg hmem hl
    unfold detectPlatformFromHost
    rw [hl]
    simp only [SUPPORTED_PLATFORMS, List.mem_cons, List.not_mem_nil,
      or_false, Prod.mk.injEq] at hmem
    rcases hmem with ⟨hk, hc⟩ | ⟨hk, hc⟩ | ⟨hk, hc⟩ | ⟨hk, hc⟩ <;>
      subst hk <;> subst hc <;> decide
  · intro host hmiss
    have hexact :
        SUPPORTED_PLATFORMS.find? (fun e => e.1 == jsLower host) = none := by
      rw [List.find?_eq_none]
      intro e he
      simpa using hmiss e he
    have hd :
        detectPlatformFromHost host =
          (SUPPORTED_PLATFORMS.find?
            (fun e =>
              jsIncludes (jsLower host)
                (jsReplaceFirst "www.".data [] e.1))).map
            (fun e => e.2) := by
      unfold detectPlatformFromHost detectFromLoweredHost
      rw [hexact]
    refine ⟨?_, ?_, ?_, ?_⟩
    · intro hdocs
      rw [hd]
      simp only [SUPPORTED_PLATFORMS]
      rw [List.find?_cons_of_pos _ (by simpa [s1] using hdocs)]
      rfl
    · intro hdocs hslides
      rw [hd]
      simp only [SUPPORTED_PLATFORMS]
      rw [List.find?_cons_of_neg _ (by simp [s1, hdocs]),
        List.find?_cons_of_pos _ (by simpa [s2] using hslides)]
      rfl
    · intro hdocs hslides hnotion
      rw [hd]
      simp only [SUPPORTED_PLATFORMS]
      rw [List.find?_cons_of_neg _ (by simp [s1, hdocs]),
        List.find?_cons_of_neg _ (by simp [s2, hslides]),
        List.find?_cons_of_pos _ (by simpa [s3] using hnotion)]
      rfl
    · intro hdocs hslides hnotion
      rw [hd]
      simp only [SUPPORTED_PLATFORMS]
      rw [List.find?_cons_of_neg _ (by simp [s1, hdocs]),
        List.find?_cons_of_neg _ (by simp [s2, hslides]),
        List.find?_cons_of_neg _ (by simp [s3, hnotion]),
        List.find?_cons_of_neg _ (by simp [s4, hnotion])]
      rfl
  · intro parse req env h1 h2 h3 hdet
    unfold editDocWorker
    rw [hdet]
    simp [h1, h2, h3]

/-- Witness for C8: an exact match on a case-variant hostname, a
substring match on a subdomain-style hostname, and an unrecognized host
mapped to 400 by the worker handler. -/
theorem platform_detector_matching_witness :
    detectPlatformFromHost "DOCS.google.com".data = some googleDocsConfig
      ∧ detectPlatformFromHost "sub.notion.so.example".data = some notionConfig
      ∧ editDocWorker (fun _ => Except.error ())
        ⟨some "http://example.com/x".data, some "Add text".data, none, true⟩
        ⟨false, false⟩
        = { status := 400, login_required := none } :=
  ⟨platform_detector_matching.1 "DOCS.google.com".data "docs.google.com".data
      googleDocsConfig (by decide) (by decide),
   (platform_detector_matching.2.1 "sub.notion.so.example".data
      (by decide)).2.2.1 (by decide) (by decide) (by decide),
   platform_detector_matching.2.2 (fun _ => Except.error ())
      ⟨some "http://example.com/x".data, some "Add text".data, none, true⟩
      ⟨false, false⟩ (by decide) (by decide) (by decide) (by decide)⟩

end PlaywrightAgent
